import Mathlib

/-!
Verification of the conda Ansible module (conda.py).

The module's logic is embedded shallowly: JSON values decoded by Python's
`json.loads` are modelled by the inductive type `PyJson`; the decoder itself
is a parameter `loads : String → Option PyJson` of every function that calls
it (`none` models a raised `ValueError`).  Python exceptions that escape the
module's own handlers are modelled by the `PyExn` type and `Except`-valued
functions.  The external process collaborator `module.run_command` is a
parameter `runCmd : List String → Int × String × String` returning
(exit code, stdout, stderr).
-/

set_option autoImplicit false

/-- A decoded Python JSON value: the possible results of `json.loads`. -/
inductive PyJson where
  | null
  | bool (b : Bool)
  | num (n : Int)
  | str (s : String)
  | arr (elems : List PyJson)
  | dict (entries : List (String × PyJson))

/-- Exceptions that can escape the functions of conda.py: Python `TypeError`
and `KeyError`, plus the three module-defined exception classes
(`CondaCommandError`, `CondaPackageNotFoundError`, `CondaUnexpectedOutputError`),
each carrying the fields its constructor stores. -/
inductive PyExn where
  | typeError
  | keyError
  | condaCommandError (command : List String) (error_message : Option PyJson)
      (output : Option PyJson) (stdout stderr : String)
  | condaPackageNotFoundError (name : String) (version : Option String)
  | condaUnexpectedOutputError (output : PyJson) (stderr : String)

/-- Python `str.isspace` characters relevant to `str.strip()`/`str.split()`. -/
def pyIsSpace (c : Char) : Bool :=
  c == ' ' || c == '\t' || c == '\n' || c == '\r' || c == '\x0b' || c == '\x0c'

/-- Python `str.strip()`: drop leading and trailing whitespace. -/
def pyStrip (s : String) : String :=
  ⟨((s.data.dropWhile pyIsSpace).reverse.dropWhile pyIsSpace).reverse⟩

/-- Worker for `pySplitNl`, accumulating the current line in reverse. -/
def splitOnNl : List Char → List Char → List String
  | [], acc => [⟨acc.reverse⟩]
  | c :: cs, acc =>
    if c = '\n' then ⟨acc.reverse⟩ :: splitOnNl cs []
    else splitOnNl cs (c :: acc)

/-- Python `s.split("\n")`. -/
def pySplitNl (s : String) : List String :=
  splitOnNl s.data []

/-- Worker for `pyWords`, accumulating the current word in reverse. -/
def pyWordsAux : List Char → List Char → List String
  | [], acc => if acc.isEmpty then [] else [⟨acc.reverse⟩]
  | c :: cs, acc =>
    if pyIsSpace c then
      if acc.isEmpty then pyWordsAux cs []
      else ⟨acc.reverse⟩ :: pyWordsAux cs []
    else pyWordsAux cs (c :: acc)

/-- Python `s.split()` (no separator): split on whitespace runs, no empty tokens. -/
def pyWords (s : String) : List String :=
  pyWordsAux s.data []

/-- Whether the first list is a leading segment of the second. -/
def startsWithChars : List Char → List Char → Bool
  | [], _ => true
  | _ :: _, [] => false
  | a :: as, b :: bs => a == b && startsWithChars as bs

/-- Whether `needle` occurs contiguously inside the second list. -/
def containsSeq (needle : List Char) : List Char → Bool
  | [] => needle.isEmpty
  | c :: tl => startsWithChars needle (c :: tl) || containsSeq needle tl

/-- Python substring test `needle in hay` for strings. -/
def strContainsSubstr (hay needle : String) : Bool :=
  containsSeq needle.data hay.data

/-- Python `==` between a decoded JSON value and a string literal:
true exactly when the value is that string. -/
def pyEqStr (v : PyJson) (s : String) : Bool :=
  match v with
  | .str t => t == s
  | _ => false

/-- First-match association lookup, as in a decoded Python dict. -/
def pyLookup (key : String) : List (String × PyJson) → Option PyJson
  | [] => none
  | kv :: rest => if kv.1 == key then some kv.2 else pyLookup key rest

/-- Python membership test `key in v` on a decoded JSON value: key lookup for
dicts, element equality for lists, substring test for strings, and a raised
`TypeError` for numbers, booleans and `None` (non-iterables). -/
def pyContains (key : String) : PyJson → Except PyExn Bool
  | .dict kvs => .ok (kvs.any fun kv => kv.1 == key)
  | .arr xs => .ok (xs.any fun x => pyEqStr x key)
  | .str s => .ok (strContainsSubstr s key)
  | _ => .error .typeError

/-- Python subscript `v[key]` with a string key: dict lookup (raising
`KeyError` when absent), `TypeError` on every other value. -/
def pyGetItem : PyJson → String → Except PyExn PyJson
  | .dict kvs, key =>
    match pyLookup key kvs with
    | some v => .ok v
    | none => .error .keyError
  | _, _ => .error .typeError

/-- Python `len(v)`: defined for dicts, lists and strings, `TypeError` otherwise. -/
def pyLen : PyJson → Except PyExn Nat
  | .dict kvs => .ok kvs.length
  | .arr xs => .ok xs.length
  | .str s => .ok s.length
  | _ => .error .typeError

/-- The line-consuming loop of `parse_conda_stdout` (conda.py lines 116-130).
Pops lines while they decode as JSON values containing a `progress` or
`maxval` key; the first line that decodes without those keys is returned;
a line that fails to decode is pushed back and the whole remaining tail is
joined with no separator and decoded as one value (`None`, i.e. `none`
inside `.ok`, when that also fails).  A membership test on a decoded
non-iterable raises `TypeError`. -/
def parse_lines (loads : String → Option PyJson) : List String → Except PyExn (Option PyJson)
  | [] => .ok (loads "")
  | line :: rest =>
    match loads line with
    | some line_content =>
      match pyContains "progress" line_content with
      | .error e => .error e
      | .ok true => parse_lines loads rest
      | .ok false =>
        match pyContains "maxval" line_content with
        | .error e => .error e
        | .ok true => parse_lines loads rest
        | .ok false => .ok (some line_content)
    | none => .ok (loads (String.join (line :: rest)))

/-- `parse_conda_stdout` from conda.py: strip the captured stdout, split it on
newlines and run the progress-skipping loop. -/
def parse_conda_stdout (loads : String → Option PyJson) (stdout : String) :
    Except PyExn (Option PyJson) :=
  parse_lines loads (pySplitNl (pyStrip stdout))

/-- `add_channels_to_command` from conda.py: when `channels` is truthy
(a non-empty string), strip it, split it on whitespace and insert
`--channel <value>` pairs after the first two command tokens. -/
def add_channels_to_command (command : List String) (channels : Option String) : List String :=
  match channels with
  | some s =>
    if s.isEmpty then command
    else
      let dashc := (pyWords (pyStrip s)).flatMap fun channel => ["--channel", channel]
      command.take 2 ++ dashc ++ command.drop 2
  | none => command

/-- `add_extras_to_command` from conda.py: when `extras` is truthy,
strip it, split it on whitespace and insert the tokens after the first two
command tokens. -/
def add_extras_to_command (command : List String) (extras : Option String) : List String :=
  match extras with
  | some s =>
    if s.isEmpty then command
    else command.take 2 ++ pyWords (pyStrip s) ++ command.drop 2
  | none => command

/-- Lines 144-145 of `_run_conda_command`: the command actually passed to
`module.run_command`, with channels injected first and extra arguments
injected into the result. -/
def build_run_command (command : List String) (channels extra_args : Option String) :
    List String :=
  add_extras_to_command (add_channels_to_command command channels) extra_args

/-- Lines 151-153 of `_run_conda_command`: the optional `error_message`
attached to a `CondaCommandError`, read from the parsed result's `message`
entry when one is present. -/
def extract_error_message (parsed : Option PyJson) : Except PyExn (Option PyJson) :=
  match parsed with
  | none => .ok none
  | some p =>
    match pyContains "message" p with
    | .error e => .error e
    | .ok true =>
      match pyGetItem p "message" with
      | .error e => .error e
      | .ok v => .ok (some v)
    | .ok false => .ok none

/-- Lines 148-156 of `_run_conda_command`: parse the captured stdout and
either return (parsed result, stderr) or raise `CondaCommandError` when the
exit code is non-zero or no result could be isolated. -/
def run_conda_result (loads : String → Option PyJson) (command : List String)
    (rc : Int) (stdout stderr : String) : Except PyExn (PyJson × String) :=
  match parse_conda_stdout loads stdout with
  | .error e => .error e
  | .ok parsed_stdout =>
    match parsed_stdout with
    | none => .error (.condaCommandError command none none stdout stderr)
    | some p =>
      if rc ≠ 0 then
        match extract_error_message (some p) with
        | .error e => .error e
        | .ok m => .error (.condaCommandError command m (some p) stdout stderr)
      else .ok (p, stderr)

/-- `_run_conda_command` from conda.py: build the final command line, run it
through the external-process collaborator and interpret the outcome.  The
first component is the command that was executed. -/
def run_conda_command (loads : String → Option PyJson)
    (runCmd : List String → Int × String × String)
    (channels extra_args : Option String) (command : List String) :
    List String × Except PyExn (PyJson × String) :=
  let built := build_run_command command channels extra_args
  let res := runCmd built
  (built, run_conda_result loads built res.1 res.2.1 res.2.2)

/-- The `except CondaCommandError` handler of `_run_conda_package_command`:
re-raise as `CondaPackageNotFoundError` when the error's parsed output has an
`exception_name` entry equal to `'PackageNotFoundError'`; otherwise re-raise
the original error.  The membership test and subscript follow Python
semantics, so a non-dict output may raise `TypeError`. -/
def wrap_package_error (name : String) (version : Option String) :
    Except PyExn (PyJson × String) → Except PyExn (PyJson × String)
  | .ok r => .ok r
  | .error (.condaCommandError c m o so se) =>
    match o with
    | none => .error (.condaCommandError c m o so se)
    | some output =>
      match pyContains "exception_name" output with
      | .error te => .error te
      | .ok false => .error (.condaCommandError c m o so se)
      | .ok true =>
        match pyGetItem output "exception_name" with
        | .error te => .error te
        | .ok v =>
          if pyEqStr v "PackageNotFoundError" then
            .error (.condaPackageNotFoundError name version)
          else .error (.condaCommandError c m o so se)
  | .error e => .error e

/-- `_run_conda_package_command` from conda.py. -/
def run_conda_package_command (loads : String → Option PyJson)
    (runCmd : List String → Int × String × String)
    (channels extra_args : Option String) (name : String) (version : Option String)
    (command : List String) : List String × Except PyExn (PyJson × String) :=
  let r := run_conda_command loads runCmd channels extra_args command
  (r.1, wrap_package_error name version r.2)

/-- `get_install_target` from conda.py: `name` or `name=version`. -/
def get_install_target (name : String) (version : Option String) : String :=
  match version with
  | none => name
  | some v => name ++ "=" ++ v

/-- The exact message matched by `_check_package_installed`. -/
def installedMsg : String := "All requested packages already installed."

/-- The interpretation of the dry-run query's parsed output in
`_check_package_installed` (conda.py lines 203-208): a `message` equal to
`installedMsg` means installed, a non-empty `actions` entry means not
installed, anything else raises `CondaUnexpectedOutputError`. -/
def interpret_check_output (output : PyJson) (stderr : String) : Except PyExn Bool :=
  match pyContains "message" output with
  | .error e => .error e
  | .ok hasMsg =>
    match (if hasMsg then
             match pyGetItem output "message" with
             | .error e => .error e
             | .ok m => .ok (pyEqStr m installedMsg)
           else .ok false : Except PyExn Bool) with
    | .error e => .error e
    | .ok true => .ok true
    | .ok false =>
      match pyContains "actions" output with
      | .error e => .error e
      | .ok hasActs =>
        match (if hasActs then
                 match pyGetItem output "actions" with
                 | .error e => .error e
                 | .ok a =>
                   match pyLen a with
                   | .error e => .error e
                   | .ok n => .ok (decide (0 < n))
               else .ok false : Except PyExn Bool) with
        | .error e => .error e
        | .ok true => .ok false
        | .ok false => .error (.condaUnexpectedOutputError output stderr)

/-- `_check_package_installed` from conda.py: run the dry-run install query
through `_run_conda_package_command` and interpret its output.  The first
component is the command that was executed. -/
def check_package_installed (loads : String → Option PyJson)
    (runCmd : List String → Int × String × String)
    (channels extra_args : Option String) (conda name : String)
    (version : Option String) : List String × Except PyExn Bool :=
  let command := [conda, "install", "--json", "--dry-run", get_install_target name version]
  let r := run_conda_package_command loads runCmd channels extra_args name version command
  (r.1,
    match r.2 with
    | .error e => .error e
    | .ok (output, stderr) => interpret_check_output output stderr)

/-- Python `list.insert(-1, arg)`: insert before the last element. -/
def pyInsertBeforeLast (command : List String) (arg : String) : List String :=
  command.take (command.length - 1) ++ [arg] ++ command.drop (command.length - 1)

/-- The structured report passed to `module.exit_json`: which keyword
arguments were supplied and with which values. -/
structure ExitInfo where
  changed : Bool
  name : Option String
  version : Option (Option String)
  output : Option PyJson
  error : Option String

/-- `module.exit_json(changed=False)` at the end of `main`. -/
def exitChangedFalse : ExitInfo := ⟨false, none, none, none, none⟩

/-- `_install_package` from conda.py: run the install command (with
`--dry-run` inserted before the target in check mode) and exit with
`changed=True`, the package name and version, the parsed output and stderr. -/
def install_package (loads : String → Option PyJson)
    (runCmd : List String → Int × String × String)
    (channels extra_args : Option String) (conda name : String)
    (version : Option String) (check_mode : Bool) :
    List String × Except PyExn ExitInfo :=
  let command := [conda, "install", "--yes", "--json", get_install_target name version]
  let command := if check_mode then pyInsertBeforeLast command "--dry-run" else command
  let r := run_conda_package_command loads runCmd channels extra_args name version command
  (r.1,
    match r.2 with
    | .error e => .error e
    | .ok (output, stderr) => .ok ⟨true, some name, some version, some output, some stderr⟩)

/-- `_uninstall_package` from conda.py: run the remove command (with
`--dry-run` inserted before the name in check mode) and exit with
`changed=True`, the parsed output and stderr. -/
def uninstall_package (loads : String → Option PyJson)
    (runCmd : List String → Int × String × String)
    (channels extra_args : Option String) (conda name : String)
    (check_mode : Bool) : List String × Except PyExn ExitInfo :=
  let command := [conda, "remove", "--yes", "--json", name]
  let command := if check_mode then pyInsertBeforeLast command "--dry-run" else command
  let r := run_conda_package_command loads runCmd channels extra_args name none command
  (r.1,
    match r.2 with
    | .error e => .error e
    | .ok (output, stderr) => .ok ⟨true, none, none, some output, some stderr⟩)

/-- How an invocation of `main` ends: `module.fail_json` with a message,
`module.exit_json` with a report, or an uncaught exception. -/
inductive ModuleResult where
  | failed (msg : String)
  | exited (info : ExitInfo)
  | raised (e : PyExn)

/-- The message passed to `fail_json` when `state == 'latest'` and a version
was supplied. -/
def latestVersionMsg : String :=
  "`version` must not be set if `state == \"latest\"` (`latest` upgrades to newest version)"

/-- The decision logic of `main` (conda.py lines 303-317), after the
collaborators resolved the executable and parsed the parameters.  Returns the
module's terminal outcome together with the list of command lines handed to
`module.run_command`, in order. -/
def conda_main (loads : String → Option PyJson)
    (runCmd : List String → Int × String × String)
    (conda name : String) (version : Option String) (state : String)
    (channels extra_args : Option String) (check_mode : Bool) :
    ModuleResult × List (List String) :=
  if state = "latest" ∧ version ≠ none then
    (.failed latestVersionMsg, [])
  else
    match (check_package_installed loads runCmd channels extra_args conda name version).2 with
    | .error e =>
      (.raised e, [(check_package_installed loads runCmd channels extra_args conda name version).1])
    | .ok correct_version_installed =>
      if correct_version_installed = false ∧ state ≠ "absent" then
        match (install_package loads runCmd channels extra_args conda name version check_mode).2 with
        | .error e =>
          (.raised e,
            [(check_package_installed loads runCmd channels extra_args conda name version).1,
             (install_package loads runCmd channels extra_args conda name version check_mode).1])
        | .ok info =>
          (.exited info,
            [(check_package_installed loads runCmd channels extra_args conda name version).1,
             (install_package loads runCmd channels extra_args conda name version check_mode).1])
      else if state = "absent" then
        match (uninstall_package loads runCmd channels extra_args conda name check_mode).2 with
        | .error (.condaPackageNotFoundError _ _) =>
          (.exited exitChangedFalse,
            [(check_package_installed loads runCmd channels extra_args conda name version).1,
             (uninstall_package loads runCmd channels extra_args conda name check_mode).1])
        | .error e =>
          (.raised e,
            [(check_package_installed loads runCmd channels extra_args conda name version).1,
             (uninstall_package loads runCmd channels extra_args conda name check_mode).1])
        | .ok info =>
          (.exited info,
            [(check_package_installed loads runCmd channels extra_args conda name version).1,
             (uninstall_package loads runCmd channels extra_args conda name check_mode).1])
      else
        (.exited exitChangedFalse,
          [(check_package_installed loads runCmd channels extra_args conda name version).1])

/-- A stdout line (or decoded value) "is a progress report": it decodes to a
JSON object carrying a `progress` or `maxval` key, exactly the shape
discarded by the loop of `parse_conda_stdout`. -/
def is_progress_line (loads : String → Option PyJson) (l : String) : Prop :=
  ∃ kvs, loads l = some (PyJson.dict kvs) ∧
    ((kvs.any fun kv => kv.1 == "progress") = true ∨
     (kvs.any fun kv => kv.1 == "maxval") = true)

/-- A single-line progress report, as emitted by conda 4.3.25. -/
def progLine0 : String := "\x7b\"progress\": 0\x7d"

/-- The decoded value of `progLine0`. -/
def progDict : PyJson := .dict [("progress", .num 0)]

/-- First line of a pretty-printed two-line result object. -/
def mlHead : String := "\x7b"

/-- Second line of a pretty-printed two-line result object. -/
def mlTail : String := "\"a\": 1\x7d"

/-- The two result lines joined with no separator, as `parse_conda_stdout`
rebuilds them. -/
def mlJoin : String := "\x7b\"a\": 1\x7d"

/-- The two result lines with their original newline. -/
def mlInter : String := "\x7b\n\"a\": 1\x7d"

/-- The decoded value of the two-line result object. -/
def aDict : PyJson := .dict [("a", .num 1)]

/-- Stdout of a dry-run query on an already-installed package. -/
def installedOut : String :=
  "\x7b\"message\": \"All requested packages already installed.\"\x7d"

/-- The decoded value of `installedOut`. -/
def installedDict : PyJson := .dict [("message", .str installedMsg)]

/-- Stdout of a dry-run query that plans actions. -/
def actionsOut : String := "\x7b\"actions\": [\"install pkg\"]\x7d"

/-- The decoded value of `actionsOut`. -/
def actionsDict : PyJson := .dict [("actions", .arr [.str "install pkg"])]

/-- Stdout of a failed command reporting a missing package. -/
def pnfOut : String := "\x7b\"exception_name\": \"PackageNotFoundError\"\x7d"

/-- The decoded value of `pnfOut`. -/
def pnfDict : PyJson := .dict [("exception_name", .str "PackageNotFoundError")]

/-- Stdout of a failed command with a generic message. -/
def boomOut : String := "\x7b\"message\": \"boom\"\x7d"

/-- The decoded value of `boomOut`. -/
def boomDict : PyJson := .dict [("message", .str "boom")]

/-- Stdout that is a JSON list containing the string `exception_name`. -/
def listErrOut : String := "[\"exception_name\"]"

/-- The decoded value of `listErrOut`. -/
def listErrVal : PyJson := .arr [.str "exception_name"]

/-- A concrete decoder standing in for `json.loads` on the fixture strings
used in the witnesses; every other string fails to decode. -/
def demoLoads (s : String) : Option PyJson :=
  if s = progLine0 then some progDict
  else if s = mlJoin then some aDict
  else if s = mlInter then some aDict
  else if s = installedOut then some installedDict
  else if s = actionsOut then some actionsDict
  else if s = pnfOut then some pnfDict
  else if s = boomOut then some boomDict
  else if s = listErrOut then some listErrVal
  else if s = "5" then some (PyJson.num 5)
  else none

/-- The dry-run query command for package `numpy` with no version. -/
def qcmd0 : List String := ["conda", "install", "--json", "--dry-run", "numpy"]

/-- A collaborator whose every command succeeds reporting the package
already installed. -/
def runInstalled (_cmd : List String) : Int × String × String := (0, installedOut, "")

/-- A collaborator whose every command fails reporting a missing package. -/
def runQueryPnf (_cmd : List String) : Int × String × String := (1, pnfOut, "")

/-- A collaborator whose every command fails with a generic message. -/
def runBoom (_cmd : List String) : Int × String × String := (1, boomOut, "")

/-- A collaborator whose every command fails and prints a bare number. -/
def runNumOut (_cmd : List String) : Int × String × String := (1, "5", "")

/-- A collaborator whose every command fails and prints a JSON list. -/
def runListErr (_cmd : List String) : Int × String × String := (1, listErrOut, "")

/-- A collaborator for which the query succeeds (already installed) and the
remove command reports a missing package. -/
def runRemovePnf (cmd : List String) : Int × String × String :=
  if cmd.get? 1 = some "remove" then (1, pnfOut, "") else (0, installedOut, "")

/-- A collaborator for which the dry-run query plans actions and the real
install command reports a missing package. -/
def runInstallPnf (cmd : List String) : Int × String × String :=
  if cmd.contains "--dry-run" then (0, actionsOut, "") else (1, pnfOut, "")

/-- Python dict membership agrees with first-match lookup. -/
theorem any_key_eq_lookup_isSome (k : String) (kvs : List (String × PyJson)) :
    (kvs.any fun kv => kv.1 == k) = (pyLookup k kvs).isSome := by
  induction kvs with
  | nil => rfl
  | cons kv rest ih =>
    by_cases h : kv.1 == k
    · simp [pyLookup, h]
    · simp only [List.any_cons, pyLookup, h, if_neg, Bool.false_or, ih]
      simp [h]

/-- `key in v` on a dict is the decidable presence of the key. -/
theorem pyContains_dict (k : String) (kvs : List (String × PyJson)) :
    pyContains k (PyJson.dict kvs) = .ok (pyLookup k kvs).isSome := by
  simp [pyContains, any_key_eq_lookup_isSome]

/-- Subscripting a dict returns the looked-up value. -/
theorem pyGetItem_dict (k : String) (kvs : List (String × PyJson)) (v : PyJson)
    (h : pyLookup k kvs = some v) : pyGetItem (PyJson.dict kvs) k = .ok v := by
  simp [pyGetItem, h]

/-- The parse loop discards every leading progress-report line. -/
theorem parse_lines_skip (loads : String → Option PyJson) :
    ∀ ps ts : List String, (∀ p ∈ ps, is_progress_line loads p) →
      parse_lines loads (ps ++ ts) = parse_lines loads ts := by
  intro ps
  induction ps with
  | nil => intro ts _; rfl
  | cons p ps ih =>
    intro ts h
    obtain ⟨kvs, hl, hk⟩ := h p (List.mem_cons_self p ps)
    have hrest : ∀ q ∈ ps, is_progress_line loads q :=
      fun q hq => h q (List.mem_cons_of_mem p hq)
    by_cases hp : (kvs.any fun kv => kv.1 == "progress") = true
    · simp [parse_lines, hl, pyContains, hp, ih ts hrest]
    · have hm : (kvs.any fun kv => kv.1 == "maxval") = true := by
        rcases hk with h1 | h1
        · exact absurd h1 hp
        · exact h1
      simp [parse_lines, hl, pyContains, hp, hm, ih ts hrest]

/-- Claim C1 counterexample: the single-line stdout consisting of one valid
JSON object that happens to carry a `progress` key satisfies the claim's
premise with N = 0 (no leading progress lines, a trailing compact JSON
object), yet `parse_conda_stdout` discards it and returns `None` instead of
the decoded object. -/
theorem parse_trailing_progress_line_cex :
    demoLoads progLine0 = some progDict
    ∧ pyStrip progLine0 = progLine0
    ∧ pySplitNl progLine0 = [progLine0]
    ∧ parse_conda_stdout demoLoads progLine0 = .ok none
    ∧ (Except.ok (some progDict) : Except PyExn (Option PyJson)) ≠ .ok none :=
  ⟨rfl, rfl, rfl, rfl, fun h => Option.noConfusion (Except.ok.inj h)⟩

/-- Claim C1 (amended): for every stdout whose stripped content splits into
N ≥ 0 progress-report lines followed by the lines of one valid JSON object —
either a single line decoding to an object that itself carries neither a
`progress` nor a `maxval` key, or several lines whose first does not decode
alone and which decode to one object when re-joined — `parse_conda_stdout`
returns exactly that decoded trailing object, independent of N. -/
theorem parse_returns_trailing_result
    (loads : String → Option PyJson) (stdout : String) (ps ts : List String) (v : PyJson)
    (hsplit : pySplitNl (pyStrip stdout) = ps ++ ts)
    (hps : ∀ p ∈ ps, is_progress_line loads p)
    (hts :
      (∃ t kvs, ts = [t] ∧ loads t = some (PyJson.dict kvs) ∧ v = PyJson.dict kvs ∧
        (kvs.any fun kv => kv.1 == "progress") = false ∧
        (kvs.any fun kv => kv.1 == "maxval") = false)
      ∨ (∃ t0 t1 rest, ts = t0 :: t1 :: rest ∧ loads t0 = none ∧
          loads (String.intercalate "\n" ts) = some v ∧
          loads (String.join ts) = some v)) :
    parse_conda_stdout loads stdout = .ok (some v) := by
  unfold parse_conda_stdout
  rw [hsplit, parse_lines_skip loads ps ts hps]
  rcases hts with ⟨t, kvs, rfl, hl, rfl, hp, hm⟩ | ⟨t0, t1, rest, rfl, h0, _, hj⟩
  · simp [parse_lines, hl, pyContains, hp, hm]
  · simp [parse_lines, h0, hj]

/-- Witness for C1's amended theorem: one progress line followed by a
two-line pretty-printed result object. -/
theorem parse_returns_trailing_result_witness :
    parse_conda_stdout demoLoads (progLine0 ++ "\n" ++ mlHead ++ "\n" ++ mlTail)
      = .ok (some aDict) :=
  parse_returns_trailing_result demoLoads (progLine0 ++ "\n" ++ mlHead ++ "\n" ++ mlTail)
    [progLine0] [mlHead, mlTail] aDict rfl
    (fun p hp => by
      rw [List.mem_singleton] at hp
      subst hp
      exact ⟨[("progress", PyJson.num 0)], rfl, Or.inl rfl⟩)
    (Or.inr ⟨mlHead, mlTail, [], rfl, rfl, rfl, rfl⟩)

/-- Claim C10: when the stripped stdout is empty, or every one of its lines
decodes as a JSON object carrying a `progress` or `maxval` key (so the whole
input is consumed as progress reports), `parse_conda_stdout` returns `None`;
the side condition `loads "" = none` records that the decoder rejects the
empty string, as `json.loads` does. -/
theorem parse_progress_only_none
    (loads : String → Option PyJson) (stdout : String)
    (hempty : loads "" = none)
    (h : pyStrip stdout = "" ∨ ∀ l ∈ pySplitNl (pyStrip stdout), is_progress_line loads l) :
    parse_conda_stdout loads stdout = .ok none := by
  unfold parse_conda_stdout
  rcases h with he | hall
  · rw [he]
    have hsplit0 : pySplitNl "" = [""] := rfl
    rw [hsplit0]
    have h1 : parse_lines loads [""] = .ok (loads (String.join [""])) := by
      simp [parse_lines, hempty]
    rw [h1]
    have h2 : String.join [""] = "" := rfl
    rw [h2, hempty]
  · have hskip := parse_lines_skip loads (pySplitNl (pyStrip stdout)) [] hall
    rw [List.append_nil] at hskip
    rw [hskip]
    simp [parse_lines, hempty]

/-- Witness for C10: the empty stdout and a stdout of two progress lines both
parse to `None`. -/
theorem parse_progress_only_none_witness :
    parse_conda_stdout demoLoads "" = .ok none
    ∧ parse_conda_stdout demoLoads (progLine0 ++ "\n" ++ progLine0) = .ok none :=
  ⟨parse_progress_only_none demoLoads "" rfl (Or.inl rfl),
   parse_progress_only_none demoLoads (progLine0 ++ "\n" ++ progLine0) rfl
    (Or.inr (fun l hl => by
      rw [show pySplitNl (pyStrip (progLine0 ++ "\n" ++ progLine0)) = [progLine0, progLine0]
            from rfl] at hl
      rcases List.mem_cons.mp hl with h | h
      · subst h
        exact ⟨[("progress", PyJson.num 0)], rfl, Or.inl rfl⟩
      · rw [List.mem_singleton] at h
        subst h
        exact ⟨[("progress", PyJson.num 0)], rfl, Or.inl rfl⟩))⟩

/-- Claim C2 counterexample: with channels `chan` and extra argument
`--extra`, the final command line has the extra argument at position 2 and
the `--channel` pair after it — the channel flags are NOT at position 2 and
are farther from the subcommand than the extras. -/
theorem channels_after_extras_cex :
    build_run_command ["conda", "install", "numpy"] (some "chan") (some "--extra")
      = ["conda", "install", "--extra", "--channel", "chan", "numpy"]
    ∧ (build_run_command ["conda", "install", "numpy"] (some "chan") (some "--extra")).take 4
      ≠ ["conda", "install", "--channel", "chan"] :=
  ⟨rfl, by decide⟩

/-- Claim C2 (amended): when running a command, channel flags are injected
first and extra arguments are injected into the result, so in the final
command line the extra arguments appear at position 2, immediately after
executable and subcommand, with the `--channel` pairs after them (farther
from the subcommand than the extras). -/
theorem build_run_command_order
    (command : List String) (t0 t1 : String) (rest : List String)
    (hcmd : command = t0 :: t1 :: rest)
    (chs exs : String) (hch : chs.isEmpty = false) (hex : exs.isEmpty = false) :
    build_run_command command (some chs) (some exs)
      = t0 :: t1 :: (pyWords (pyStrip exs)
          ++ ((pyWords (pyStrip chs)).flatMap fun channel => ["--channel", channel])
          ++ rest) := by
  subst hcmd
  have h1 : add_channels_to_command (t0 :: t1 :: rest) (some chs)
      = t0 :: t1 :: (((pyWords (pyStrip chs)).flatMap fun channel => ["--channel", channel])
          ++ rest) := by
    simp only [add_channels_to_command, hch, Bool.false_eq_true, if_false]
    rfl
  unfold build_run_command
  rw [h1]
  simp only [add_extras_to_command, hex, Bool.false_eq_true, if_false]
  change t0 :: t1 :: (pyWords (pyStrip exs)
      ++ (((pyWords (pyStrip chs)).flatMap fun channel => ["--channel", channel]) ++ rest)) = _
  rw [← List.append_assoc]

/-- Witness for C2's amended theorem on a concrete three-token command. -/
theorem build_run_command_order_witness :
    build_run_command ["conda", "install", "numpy"] (some "chan") (some "--override")
      = ["conda", "install", "--override", "--channel", "chan", "numpy"] :=
  build_run_command_order ["conda", "install", "numpy"] "conda" "install" ["numpy"] rfl
    "chan" "--override" rfl rfl

/-- Elements survive `List.dropWhile`. -/
theorem mem_of_mem_dropWhile {α : Type} (p : α → Bool) (c : α) :
    ∀ l : List α, c ∈ l.dropWhile p → c ∈ l := by
  intro l
  induction l with
  | nil => intro h; exact h
  | cons a tl ih =>
    intro h
    rw [List.dropWhile_cons] at h
    by_cases hp : p a = true
    · rw [if_pos hp] at h
      exact List.mem_cons_of_mem a (ih h)
    · rw [if_neg hp] at h
      exact h

/-- Every character of a stripped string occurs in the original string. -/
theorem mem_pyStrip (s : String) (c : Char) (h : c ∈ (pyStrip s).data) : c ∈ s.data := by
  change c ∈ (((s.data.dropWhile pyIsSpace).reverse.dropWhile pyIsSpace).reverse) at h
  rw [List.mem_reverse] at h
  have h2 := mem_of_mem_dropWhile pyIsSpace c _ h
  rw [List.mem_reverse] at h2
  exact mem_of_mem_dropWhile pyIsSpace c _ h2

/-- Splitting an all-whitespace character list on whitespace gives no words. -/
theorem pyWordsAux_all_space (cs : List Char) (h : ∀ c ∈ cs, pyIsSpace c = true) :
    pyWordsAux cs [] = [] := by
  induction cs with
  | nil => rfl
  | cons c tl ih =>
    have hc := h c (List.mem_cons_self c tl)
    simp only [pyWordsAux, hc, if_true, List.isEmpty_nil]
    exact ih (fun x hx => h x (List.mem_cons_of_mem c hx))

/-- Stripping then whitespace-splitting an all-whitespace string gives no words. -/
theorem pyWords_strip_all_space (s : String) (h : ∀ c ∈ s.data, pyIsSpace c = true) :
    pyWords (pyStrip s) = [] := by
  unfold pyWords
  exact pyWordsAux_all_space _ (fun c hc => h c (mem_pyStrip s c hc))

/-- Claim C9: injecting a channels or extra-args value that is None, empty,
or consists only of whitespace returns a command equal to the base command,
with no empty token inserted. -/
theorem blank_injection_identity (command : List String) (v : Option String)
    (h : v = none ∨ ∃ s, v = some s ∧ ∀ c ∈ s.data, pyIsSpace c = true) :
    add_channels_to_command command v = command
    ∧ add_extras_to_command command v = command := by
  rcases h with rfl | ⟨s, rfl, hs⟩
  · exact ⟨rfl, rfl⟩
  · by_cases he : s.isEmpty
    · constructor <;> simp [add_channels_to_command, add_extras_to_command, he]
    · have hw : pyWords (pyStrip s) = [] := pyWords_strip_all_space s hs
      constructor <;>
        simp [add_channels_to_command, add_extras_to_command, he, hw, List.take_append_drop]

/-- Witness for C9 at a whitespace-only injected value. -/
theorem blank_injection_identity_witness :
    add_channels_to_command ["conda", "install", "numpy"] (some " \t ")
      = ["conda", "install", "numpy"]
    ∧ add_extras_to_command ["conda", "install", "numpy"] (some " \t ")
      = ["conda", "install", "numpy"] :=
  blank_injection_identity ["conda", "install", "numpy"] (some " \t ")
    (Or.inr ⟨" \t ", rfl, by decide⟩)

/-- Claim C8: requesting state `latest` together with a non-null version
fails immediately with the conflicting-request message, before any command
is built or any external command is run (the command log is empty). -/
theorem latest_with_version_rejected
    (loads : String → Option PyJson) (runCmd : List String → Int × String × String)
    (conda name v : String) (channels extra_args : Option String) (check_mode : Bool) :
    conda_main loads runCmd conda name (some v) "latest" channels extra_args check_mode
      = (.failed latestVersionMsg, []) := by
  unfold conda_main
  rw [if_pos ⟨rfl, by simp⟩]

/-- Claim C6: when the dry-run query classifies the requested name/version as
already satisfied and the desired state is not `absent`, the module exits
with `changed=False` and only the dry-run query command was executed. -/
theorem satisfied_no_mutation
    (loads : String → Option PyJson) (runCmd : List String → Int × String × String)
    (conda name : String) (version : Option String) (state : String)
    (channels extra_args : Option String) (check_mode : Bool)
    (hg : ¬ (state = "latest" ∧ version ≠ none))
    (hs : state ≠ "absent")
    (hq : (check_package_installed loads runCmd channels extra_args conda name version).2
        = .ok true) :
    conda_main loads runCmd conda name version state channels extra_args check_mode
      = (.exited exitChangedFalse,
         [(check_package_installed loads runCmd channels extra_args conda name version).1]) := by
  unfold conda_main
  rw [if_neg hg, hq]
  simp [hs]

/-- Witness for C6: already-installed query with state `present`. -/
theorem satisfied_no_mutation_witness :
    conda_main demoLoads runInstalled "conda" "numpy" none "present" none none false
      = (.exited exitChangedFalse,
         [(check_package_installed demoLoads runInstalled none none "conda" "numpy" none).1]) :=
  satisfied_no_mutation demoLoads runInstalled "conda" "numpy" none "present" none none false
    (by simp) (by simp) rfl

/-- Claim C7: a `CondaPackageNotFoundError` raised by the remove command when
the desired state is `absent` is swallowed and the module exits successfully
with `changed=False`; the same error raised on the query path or on the
install path is surfaced (the module crashes with it). -/
theorem package_not_found_swallowed_only_on_remove
    (loads : String → Option PyJson) (runCmd : List String → Int × String × String)
    (conda name : String) (version : Option String)
    (channels extra_args : Option String) (check_mode : Bool) :
    (∀ b, (check_package_installed loads runCmd channels extra_args conda name version).2
        = .ok b →
      ∀ n v, (uninstall_package loads runCmd channels extra_args conda name check_mode).2
          = .error (.condaPackageNotFoundError n v) →
        conda_main loads runCmd conda name version "absent" channels extra_args check_mode
          = (.exited exitChangedFalse,
             [(check_package_installed loads runCmd channels extra_args conda name version).1,
              (uninstall_package loads runCmd channels extra_args conda name check_mode).1]))
    ∧ (∀ state n v, ¬ (state = "latest" ∧ version ≠ none) →
        (check_package_installed loads runCmd channels extra_args conda name version).2
            = .error (.condaPackageNotFoundError n v) →
        conda_main loads runCmd conda name version state channels extra_args check_mode
          = (.raised (.condaPackageNotFoundError n v),
             [(check_package_installed loads runCmd channels extra_args conda name version).1]))
    ∧ (∀ state n v, ¬ (state = "latest" ∧ version ≠ none) → state ≠ "absent" →
        (check_package_installed loads runCmd channels extra_args conda name version).2
            = .ok false →
        (install_package loads runCmd channels extra_args conda name version check_mode).2
            = .error (.condaPackageNotFoundError n v) →
        conda_main loads runCmd conda name version state channels extra_args check_mode
          = (.raised (.condaPackageNotFoundError n v),
             [(check_package_installed loads runCmd channels extra_args conda name version).1,
              (install_package loads runCmd channels extra_args conda name version check_mode).1])) := by
  refine ⟨?_, ?_, ?_⟩
  · intro b hq n v hr
    unfold conda_main
    rw [if_neg (by simp), hq, hr]
    simp
  · intro state n v hg hq
    unfold conda_main
    rw [if_neg hg, hq]
  · intro state n v hg hs hq hi
    unfold conda_main
    rw [if_neg hg, hq, hi]
    simp [hs]

/-- Witness for C7: remove-path swallow, query-path surfacing and
install-path surfacing, each on a concrete collaborator. -/
theorem package_not_found_swallowed_only_on_remove_witness :
    conda_main demoLoads runRemovePnf "conda" "numpy" none "absent" none none false
      = (.exited exitChangedFalse,
         [(check_package_installed demoLoads runRemovePnf none none "conda" "numpy" none).1,
          (uninstall_package demoLoads runRemovePnf none none "conda" "numpy" false).1])
    ∧ conda_main demoLoads runQueryPnf "conda" "numpy" none "present" none none false
      = (.raised (.condaPackageNotFoundError "numpy" none),
         [(check_package_installed demoLoads runQueryPnf none none "conda" "numpy" none).1])
    ∧ conda_main demoLoads runInstallPnf "conda" "numpy" none "present" none none false
      = (.raised (.condaPackageNotFoundError "numpy" none),
         [(check_package_installed demoLoads runInstallPnf none none "conda" "numpy" none).1,
          (install_package demoLoads runInstallPnf none none "conda" "numpy" none false).1]) :=
  ⟨(package_not_found_swallowed_only_on_remove demoLoads runRemovePnf "conda" "numpy" none
      none none false).1 true rfl "numpy" none rfl,
   (package_not_found_swallowed_only_on_remove demoLoads runQueryPnf "conda" "numpy" none
      none none false).2.1 "present" "numpy" none (by simp) rfl,
   (package_not_found_swallowed_only_on_remove demoLoads runInstallPnf "conda" "numpy" none
      none none false).2.2 "present" "numpy" none (by simp) (by simp) rfl rfl⟩

/-- Claim C3 counterexample: a failed command whose stdout is the JSON list
`["exception_name"]` produces a `CondaCommandError` whose parsed output does
not carry an `exception_name` indicator equal to the not-found marker; the
claim requires it to propagate unchanged, but the package-scoped wrapper
raises `TypeError` instead (Python subscripts the list with a string). -/
theorem package_error_list_output_cex :
    (run_conda_command demoLoads runListErr none none qcmd0).2
      = .error (.condaCommandError qcmd0 none (some listErrVal) listErrOut "")
    ∧ (run_conda_package_command demoLoads runListErr none none "numpy" none qcmd0).2
      = .error PyExn.typeError
    ∧ (Except.error PyExn.typeError : Except PyExn (PyJson × String))
      ≠ .error (.condaCommandError qcmd0 none (some listErrVal) listErrOut "") :=
  ⟨rfl, rfl, fun h => PyExn.noConfusion (Except.error.inj h)⟩

/-- Claim C3 (amended): when a package-scoped command fails with a
`CondaCommandError` whose parsed output is absent or a mapping, the failure
is re-signaled as `CondaPackageNotFoundError(name, version)` exactly when the
mapping's `exception_name` entry equals `'PackageNotFoundError'`, and any
other such tool error propagates unchanged.  (A non-mapping parsed output
containing `exception_name` raises `TypeError` instead.) -/
theorem package_not_found_translation
    (loads : String → Option PyJson) (runCmd : List String → Int × String × String)
    (channels extra_args : Option String)
    (name : String) (version : Option String) (command : List String)
    (c : List String) (m o : Option PyJson) (so se : String)
    (hrun : (run_conda_command loads runCmd channels extra_args command).2
        = .error (.condaCommandError c m o so se)) :
    (∀ kvs, o = some (PyJson.dict kvs) →
      pyLookup "exception_name" kvs = some (PyJson.str "PackageNotFoundError") →
      (run_conda_package_command loads runCmd channels extra_args name version command).2
        = .error (.condaPackageNotFoundError name version))
    ∧ ((o = none ∨ ∃ kvs, o = some (PyJson.dict kvs) ∧
          ∀ v, pyLookup "exception_name" kvs = some v →
            pyEqStr v "PackageNotFoundError" = false) →
        (run_conda_package_command loads runCmd channels extra_args name version command).2
          = .error (.condaCommandError c m o so se)) := by
  constructor
  · intro kvs ho hl
    subst ho
    show wrap_package_error name version
        (run_conda_command loads runCmd channels extra_args command).2 = _
    rw [hrun]
    simp [wrap_package_error, pyContains_dict, hl, pyGetItem_dict _ _ _ hl, pyEqStr]
  · intro h
    show wrap_package_error name version
        (run_conda_command loads runCmd channels extra_args command).2 = _
    rw [hrun]
    rcases h with rfl | ⟨kvs, rfl, hv⟩
    · rfl
    · cases hl : pyLookup "exception_name" kvs with
      | none => simp [wrap_package_error, pyContains_dict, hl]
      | some v =>
        have hne := hv v hl
        simp [wrap_package_error, pyContains_dict, hl, pyGetItem_dict _ _ _ hl, hne]

/-- Witness for C3's amended theorem: a not-found error is translated, a
generic error passes through unchanged. -/
theorem package_not_found_translation_witness :
    (run_conda_package_command demoLoads runQueryPnf none none "numpy" none qcmd0).2
      = .error (.condaPackageNotFoundError "numpy" none)
    ∧ (run_conda_package_command demoLoads runBoom none none "numpy" none qcmd0).2
      = .error (.condaCommandError qcmd0 (some (PyJson.str "boom")) (some boomDict) boomOut "") :=
  ⟨(package_not_found_translation demoLoads runQueryPnf none none "numpy" none qcmd0
      qcmd0 none (some pnfDict) pnfOut "" rfl).1
      [("exception_name", PyJson.str "PackageNotFoundError")] rfl rfl,
   (package_not_found_translation demoLoads runBoom none none "numpy" none qcmd0
      qcmd0 (some (PyJson.str "boom")) (some boomDict) boomOut "" rfl).2
      (Or.inr ⟨[("message", PyJson.str "boom")], rfl, fun _v hv => Option.noConfusion hv⟩)⟩

/-- On a mapping, the extracted error message is exactly the `message` entry
(or absent). -/
theorem extract_error_message_dict (kvs : List (String × PyJson)) :
    extract_error_message (some (PyJson.dict kvs)) = .ok (pyLookup "message" kvs) := by
  cases hl : pyLookup "message" kvs with
  | none => simp [extract_error_message, pyContains_dict, hl]
  | some w => simp [extract_error_message, pyContains_dict, hl, pyGetItem_dict _ _ _ hl]

/-- Core of `_run_conda_command` after `module.run_command` returns: a
`CondaCommandError` is raised exactly when the exit code is non-zero or no
result was isolated, and otherwise the parsed result is returned with
stderr, assuming parsing and message extraction raise nothing. -/
theorem run_conda_result_spec (loads : String → Option PyJson) (command : List String)
    (rc : Int) (stdout stderr : String) (parsed msg : Option PyJson)
    (hp : parse_conda_stdout loads stdout = .ok parsed)
    (hm : extract_error_message parsed = .ok msg) :
    (run_conda_result loads command rc stdout stderr
        = .error (.condaCommandError command msg parsed stdout stderr)
      ↔ (rc ≠ 0 ∨ parsed = none))
    ∧ (∀ p, parsed = some p → rc = 0 →
        run_conda_result loads command rc stdout stderr = .ok (p, stderr)) := by
  rcases parsed with _ | p
  · have hmsg : msg = none := (Except.ok.inj hm).symm
    subst hmsg
    have hres : run_conda_result loads command rc stdout stderr
        = .error (.condaCommandError command none none stdout stderr) := by
      simp [run_conda_result, hp]
    constructor
    · exact ⟨fun _ => Or.inr rfl, fun _ => hres⟩
    · intro p hp'
      exact absurd hp' (by simp)
  · by_cases hrc : rc = 0
    · subst hrc
      have hres : run_conda_result loads command 0 stdout stderr = .ok (p, stderr) := by
        simp [run_conda_result, hp]
      constructor
      · constructor
        · intro h
          rw [hres] at h
          exact Except.noConfusion h
        · intro h
          rcases h with h | h
          · exact absurd rfl h
          · exact Option.noConfusion h
      · intro p' hp' _
        rw [hres, Option.some.inj hp']
    · have hres : run_conda_result loads command rc stdout stderr
          = .error (.condaCommandError command msg (some p) stdout stderr) := by
        simp only [run_conda_result, hp]
        rw [if_pos hrc, hm]
      constructor
      · exact ⟨fun _ => Or.inl hrc, fun _ => hres⟩
      · intro p' _ h0
        exact absurd h0 hrc

/-- Claim C4 counterexample: the process exits non-zero with stdout `5`;
parsing raises `TypeError` (membership test on a decoded number), so the
runner raises `TypeError` rather than signaling a `CondaCommandError`,
although the exit code is non-zero. -/
theorem run_command_type_error_cex :
    (runNumOut (build_run_command qcmd0 none none)).1 ≠ 0
    ∧ parse_conda_stdout demoLoads "5" = .error PyExn.typeError
    ∧ (run_conda_command demoLoads runNumOut none none qcmd0).2 = .error PyExn.typeError
    ∧ (match (run_conda_command demoLoads runNumOut none none qcmd0).2 with
       | .error (.condaCommandError _ _ _ _ _) => False
       | _ => True) :=
  ⟨by decide, rfl, rfl, trivial⟩

/-- Claim C4 (amended): for every command execution in which parsing stdout
and extracting the optional message raise no `TypeError`, the runner signals
a `CondaCommandError` — carrying the built command, the optional message,
the parsed result and the raw stdout/stderr — exactly when the exit code is
non-zero or no result was isolated; otherwise it returns the parsed result
paired with stderr.  The message equals the parsed mapping's `message` entry
when present and is empty otherwise. -/
theorem run_conda_command_error_spec
    (loads : String → Option PyJson) (runCmd : List String → Int × String × String)
    (channels extra_args : Option String) (command : List String)
    (parsed msg : Option PyJson)
    (hp : parse_conda_stdout loads
        (runCmd (build_run_command command channels extra_args)).2.1 = .ok parsed)
    (hm : extract_error_message parsed = .ok msg) :
    ((run_conda_command loads runCmd channels extra_args command).2
        = .error (.condaCommandError (build_run_command command channels extra_args) msg parsed
            (runCmd (build_run_command command channels extra_args)).2.1
            (runCmd (build_run_command command channels extra_args)).2.2)
      ↔ ((runCmd (build_run_command command channels extra_args)).1 ≠ 0 ∨ parsed = none))
    ∧ (∀ p, parsed = some p → (runCmd (build_run_command command channels extra_args)).1 = 0 →
        (run_conda_command loads runCmd channels extra_args command).2
          = .ok (p, (runCmd (build_run_command command channels extra_args)).2.2))
    ∧ (parsed = none → msg = none)
    ∧ (∀ kvs, parsed = some (PyJson.dict kvs) → msg = pyLookup "message" kvs) := by
  have hcore : (run_conda_command loads runCmd channels extra_args command).2
      = run_conda_result loads (build_run_command command channels extra_args)
          (runCmd (build_run_command command channels extra_args)).1
          (runCmd (build_run_command command channels extra_args)).2.1
          (runCmd (build_run_command command channels extra_args)).2.2 := rfl
  obtain ⟨h1, h2⟩ := run_conda_result_spec loads
    (build_run_command command channels extra_args)
    (runCmd (build_run_command command channels extra_args)).1
    (runCmd (build_run_command command channels extra_args)).2.1
    (runCmd (build_run_command command channels extra_args)).2.2
    parsed msg hp hm
  refine ⟨?_, ?_, ?_, ?_⟩
  · rw [hcore]
    exact h1
  · intro p hp' h0
    rw [hcore]
    exact h2 p hp' h0
  · intro hnone
    subst hnone
    exact (Except.ok.inj hm).symm
  · intro kvs hk
    subst hk
    rw [extract_error_message_dict] at hm
    exact (Except.ok.inj hm).symm

/-- Witness for C4's amended theorem: a failing command with a `message`
entry raises the fully-populated `CondaCommandError`; a succeeding command
returns (parsed result, stderr). -/
theorem run_conda_command_error_spec_witness :
    (run_conda_command demoLoads runBoom none none qcmd0).2
      = .error (.condaCommandError qcmd0 (some (PyJson.str "boom")) (some boomDict) boomOut "")
    ∧ (run_conda_command demoLoads runInstalled none none qcmd0).2 = .ok (installedDict, "") :=
  ⟨(run_conda_command_error_spec demoLoads runBoom none none qcmd0
      (some boomDict) (some (PyJson.str "boom")) rfl rfl).1.mpr (Or.inl (by decide)),
   (run_conda_command_error_spec demoLoads runInstalled none none qcmd0
      (some installedDict) (some (PyJson.str installedMsg)) rfl rfl).2.1 installedDict rfl rfl⟩

/-- Claim C5 counterexample: a parsed dry-run result that is a mapping whose
`actions` entry is the number 5 matches neither the installed-message shape
nor an empty/absent `actions` shape, yet the interpreter raises `TypeError`
(Python `len` of a number) instead of signaling
`CondaUnexpectedOutputError`. -/
theorem interpret_actions_type_error_cex :
    interpret_check_output (PyJson.dict [("actions", PyJson.num 5)]) "" = .error PyExn.typeError
    ∧ (Except.error PyExn.typeError : Except PyExn Bool)
      ≠ .error (.condaUnexpectedOutputError (PyJson.dict [("actions", PyJson.num 5)]) "") :=
  ⟨rfl, fun h => PyExn.noConfusion (Except.error.inj h)⟩

/-- Claim C5 (amended): for every parsed dry-run result that is a mapping, a
`message` entry equal to the exact string
`All requested packages already installed.` classifies the package as
already satisfied; otherwise an `actions` entry of non-zero length
classifies it as not satisfied; otherwise — `actions` absent or of zero
length — `CondaUnexpectedOutputError` is signaled.  (An `actions` value
without a length, such as a number, raises `TypeError` instead.) -/
theorem interpret_check_output_classification (kvs : List (String × PyJson)) (stde : String) :
    (∀ m, pyLookup "message" kvs = some m → pyEqStr m installedMsg = true →
      interpret_check_output (PyJson.dict kvs) stde = .ok true)
    ∧ ((∀ m, pyLookup "message" kvs = some m → pyEqStr m installedMsg = false) →
        ∀ a n, pyLookup "actions" kvs = some a → pyLen a = .ok n → 0 < n →
          interpret_check_output (PyJson.dict kvs) stde = .ok false)
    ∧ ((∀ m, pyLookup "message" kvs = some m → pyEqStr m installedMsg = false) →
        (pyLookup "actions" kvs = none
          ∨ ∃ a, pyLookup "actions" kvs = some a ∧ pyLen a = .ok 0) →
        interpret_check_output (PyJson.dict kvs) stde
          = .error (.condaUnexpectedOutputError (PyJson.dict kvs) stde)) := by
  refine ⟨?_, ?_, ?_⟩
  · intro m hm heq
    simp [interpret_check_output, pyContains_dict, hm, pyGetItem_dict _ _ _ hm, heq]
  · intro hno a n ha hn hpos
    have hdec : decide (0 < n) = true := decide_eq_true hpos
    cases hm : pyLookup "message" kvs with
    | none =>
      simp [interpret_check_output, pyContains_dict, hm, ha,
        pyGetItem_dict _ _ _ ha, hn, hdec]
    | some m =>
      have heq := hno m hm
      simp [interpret_check_output, pyContains_dict, hm, pyGetItem_dict _ _ _ hm, heq,
        ha, pyGetItem_dict _ _ _ ha, hn, hdec]
  · intro hno hacts
    rcases hacts with ha | ⟨a, ha, hn⟩
    · cases hm : pyLookup "message" kvs with
      | none => simp [interpret_check_output, pyContains_dict, hm, ha]
      | some m =>
        have heq := hno m hm
        simp [interpret_check_output, pyContains_dict, hm, pyGetItem_dict _ _ _ hm, heq, ha]
    · cases hm : pyLookup "message" kvs with
      | none =>
        simp [interpret_check_output, pyContains_dict, hm, ha, pyGetItem_dict _ _ _ ha, hn]
      | some m =>
        have heq := hno m hm
        simp [interpret_check_output, pyContains_dict, hm, pyGetItem_dict _ _ _ hm, heq,
          ha, pyGetItem_dict _ _ _ ha, hn]

/-- Witness for C5's amended theorem: the installed message classifies as
satisfied, a one-element `actions` list as not satisfied, and a result with
neither shape raises the unexpected-output error. -/
theorem interpret_check_output_classification_witness :
    interpret_check_output (PyJson.dict [("message", PyJson.str installedMsg)]) "" = .ok true
    ∧ interpret_check_output actionsDict "" = .ok false
    ∧ interpret_check_output (PyJson.dict [("success", PyJson.bool true)]) ""
      = .error (.condaUnexpectedOutputError (PyJson.dict [("success", PyJson.bool true)]) "") :=
  ⟨(interpret_check_output_classification [("message", PyJson.str installedMsg)] "").1
      (PyJson.str installedMsg) rfl rfl,
   (interpret_check_output_classification [("actions", PyJson.arr [PyJson.str "install pkg"])] "").2.1
      (fun _m hm => Option.noConfusion hm)
      (PyJson.arr [PyJson.str "install pkg"]) 1 rfl rfl (by decide),
   (interpret_check_output_classification [("success", PyJson.bool true)] "").2.2
      (fun _m hm => Option.noConfusion hm) (Or.inl rfl)⟩
